import Mathlib

/-!
Verification of the core state-management subsystems of the repository:
the Shell Memory runtime (the observable state store,
`0.3.a_fileShellMemory.runtime.ts`), the Intent Glossary (the static
registry of declared intents, `0.2.a_fileIntentGlossary.settings.ts`),
and the Recursion Executor (the policy-gated action gateway,
`0.4.a_fileRecursionExecutor.interface.ts`).

The TypeScript sources are shallowly embedded: machine state becomes
explicit record-passing, `Partial<...>` update records become records of
`Option` fields, JavaScript numbers used for the drift metric become
rationals, `Date.now()` becomes an explicit `now : Nat` parameter, the
asynchronous executor callback becomes a function from the store runtime
to an `Except` outcome paired with the runtime it leaves behind, and the
`Set` of subscriber callbacks becomes an insertion-ordered duplicate-free
list of subscriber identifiers.
-/

-- ═══════════════════════════════════════════════════════════════════════════
-- Data model: enumerations from 0.3.a_fileShellMemory.runtime.ts
-- ═══════════════════════════════════════════════════════════════════════════

/-- Source `PhaseStability` (the spec names `DRIFT_DETECTED` as DRIFTING). -/
inductive PhaseStability where
  | INITIALIZING
  | STABLE
  | TRANSITIONING
  | DRIFT_DETECTED
  | STALLED
deriving DecidableEq, Repr

/-- Source `ViewGlyph` navigation identifiers. -/
inductive ViewGlyph where
  | VIEW_LOGIN
  | VIEW_SIGNUP
  | VIEW_VERIFY_EMAIL
  | VIEW_FORGOT_PASSWORD
  | VIEW_MAIN_APP
  | VIEW_LOADING
deriving DecidableEq, Repr

/-- Source `ErrorSourceGlyph` error-source tags. -/
inductive ErrorSourceGlyph where
  | ERROR_AUTH_LOGIN
  | ERROR_AUTH_SIGNUP
  | ERROR_AUTH_SIGNOUT
  | ERROR_AUTH_PASSWORD_RESET
  | ERROR_AUTH_EMAIL_VERIFICATION
  | ERROR_STORAGE_UPLOAD
  | ERROR_STORAGE_DELETE
  | ERROR_NETWORK
  | ERROR_UNKNOWN
deriving DecidableEq, Repr

/-- Opaque Firebase `User` record; only its identity matters to the core. -/
structure User where
  uid : String
deriving DecidableEq, Repr

-- ═══════════════════════════════════════════════════════════════════════════
-- Data model: phase memory records (the ApplicationState of the spec)
-- ═══════════════════════════════════════════════════════════════════════════

/-- Source `AuthPhaseMemory`. -/
structure AuthPhaseMemory where
  currentUser : Option User
  isAuthenticated : Bool
  emailVerified : Bool
  authLoadingComplete : Bool
  lastAuthEventTimestamp : Option Nat
deriving DecidableEq, Repr

/-- Source `FormPhaseMemory`. -/
structure FormPhaseMemory where
  email : String
  password : String
  confirmPassword : String
  displayName : String
deriving DecidableEq, Repr

/-- Source `UIPhaseMemory`. -/
structure UIPhaseMemory where
  isLoading : Bool
  currentView : ViewGlyph
  previousView : Option ViewGlyph
  formState : FormPhaseMemory
deriving DecidableEq, Repr

/-- Source `ErrorPhaseMemory`. -/
structure ErrorPhaseMemory where
  hasError : Bool
  errorCode : Option String
  errorMessage : Option String
  errorTimestamp : Option Nat
  errorSource : Option ErrorSourceGlyph
deriving DecidableEq, Repr

/-- Source `PhaseMemoryState`, the single state snapshot. -/
structure PhaseMemoryState where
  recursionTimestamp : Nat
  phaseStability : PhaseStability
  authPhase : AuthPhaseMemory
  uiPhase : UIPhaseMemory
  errorPhase : ErrorPhaseMemory
deriving DecidableEq, Repr

/-- Source `INITIAL_PHASE_MEMORY` (its `Date.now()` modelled as time 0). -/
def INITIAL_PHASE_MEMORY : PhaseMemoryState :=
  { recursionTimestamp := 0
    phaseStability := .INITIALIZING
    authPhase :=
      { currentUser := none
        isAuthenticated := false
        emailVerified := false
        authLoadingComplete := false
        lastAuthEventTimestamp := none }
    uiPhase :=
      { isLoading := true
        currentView := .VIEW_LOADING
        previousView := none
        formState :=
          { email := ""
            password := ""
            confirmPassword := ""
            displayName := "" } }
    errorPhase :=
      { hasError := false
        errorCode := none
        errorMessage := none
        errorTimestamp := none
        errorSource := none } }

-- ═══════════════════════════════════════════════════════════════════════════
-- Intent Glossary: 0.2.a_fileIntentGlossary.settings.ts
-- ═══════════════════════════════════════════════════════════════════════════

/-- Source `IntentCategory`. -/
inductive IntentCategory where
  | AUTH_GATE
  | IDENTITY_VECTOR
  | MEMORY_PHASE
  | STORAGE_SHELL
  | NAVIGATION_GRAFT
  | EMISSION_SIGNAL
deriving DecidableEq, Repr

/-- Source `CollapseLayer`. -/
inductive CollapseLayer where
  | SCALAR
  | GRADIENT
  | CURL
  | CURVATURE
  | BOUNDARY
deriving DecidableEq, Repr

/-- Source `IntentDeclaration`; `entropyThreshold` is named
`instabilityTolerance` by the spec, modelled as a rational. -/
structure IntentDeclaration where
  intentGlyph : String
  intentCategory : IntentCategory
  collapseLayer : CollapseLayer
  entropyThreshold : ℚ
  description : String
  requiresAuthentication : Bool
  reversible : Bool
deriving DecidableEq, Repr

/-- Source `INTENT_GLOSSARY`: the full static registry, all 22 rows. -/
def INTENT_GLOSSARY : List IntentDeclaration :=
  [ { intentGlyph := "AUTH_LOGIN_WITH_EMAIL", intentCategory := .AUTH_GATE,
      collapseLayer := .GRADIENT, entropyThreshold := 1/10,
      description := "Authenticate user with email/password",
      requiresAuthentication := false, reversible := true },
    { intentGlyph := "AUTH_SIGNUP_WITH_EMAIL", intentCategory := .AUTH_GATE,
      collapseLayer := .GRADIENT, entropyThreshold := 2/10,
      description := "Register new user identity vector",
      requiresAuthentication := false, reversible := false },
    { intentGlyph := "AUTH_SIGNOUT", intentCategory := .AUTH_GATE,
      collapseLayer := .GRADIENT, entropyThreshold := 5/100,
      description := "Dissolve active session",
      requiresAuthentication := true, reversible := true },
    { intentGlyph := "AUTH_SEND_PASSWORD_RESET", intentCategory := .AUTH_GATE,
      collapseLayer := .CURL, entropyThreshold := 15/100,
      description := "Initiate password recovery loop",
      requiresAuthentication := false, reversible := false },
    { intentGlyph := "AUTH_SEND_EMAIL_VERIFICATION", intentCategory := .AUTH_GATE,
      collapseLayer := .CURL, entropyThreshold := 1/10,
      description := "Send verification",
      requiresAuthentication := true, reversible := false },
    { intentGlyph := "AUTH_RELOAD_USER", intentCategory := .AUTH_GATE,
      collapseLayer := .SCALAR, entropyThreshold := 2/100,
      description := "Refresh user state from Firebase",
      requiresAuthentication := true, reversible := true },
    { intentGlyph := "IDENTITY_GET_CURRENT_USER", intentCategory := .IDENTITY_VECTOR,
      collapseLayer := .CURL, entropyThreshold := 1/100,
      description := "Read current authenticated identity",
      requiresAuthentication := false, reversible := true },
    { intentGlyph := "IDENTITY_UPDATE_PROFILE", intentCategory := .IDENTITY_VECTOR,
      collapseLayer := .CURVATURE, entropyThreshold := 1/10,
      description := "Modify user profile data",
      requiresAuthentication := true, reversible := true },
    { intentGlyph := "IDENTITY_UPDATE_EMAIL", intentCategory := .IDENTITY_VECTOR,
      collapseLayer := .BOUNDARY, entropyThreshold := 3/10,
      description := "Change email address",
      requiresAuthentication := true, reversible := false },
    { intentGlyph := "IDENTITY_UPDATE_PASSWORD", intentCategory := .IDENTITY_VECTOR,
      collapseLayer := .BOUNDARY, entropyThreshold := 3/10,
      description := "Change password",
      requiresAuthentication := true, reversible := false },
    { intentGlyph := "MEMORY_SET_AUTH_STATE", intentCategory := .MEMORY_PHASE,
      collapseLayer := .CURL, entropyThreshold := 5/100,
      description := "Update global auth state",
      requiresAuthentication := false, reversible := true },
    { intentGlyph := "MEMORY_SET_LOADING_STATE", intentCategory := .MEMORY_PHASE,
      collapseLayer := .SCALAR, entropyThreshold := 1/100,
      description := "Toggle loading indicator",
      requiresAuthentication := false, reversible := true },
    { intentGlyph := "MEMORY_SET_ERROR_STATE", intentCategory := .MEMORY_PHASE,
      collapseLayer := .BOUNDARY, entropyThreshold := 2/10,
      description := "Record error condition",
      requiresAuthentication := false, reversible := true },
    { intentGlyph := "MEMORY_CLEAR_ERROR_STATE", intentCategory := .MEMORY_PHASE,
      collapseLayer := .SCALAR, entropyThreshold := 1/100,
      description := "Clear error condition",
      requiresAuthentication := false, reversible := true },
    { intentGlyph := "STORAGE_UPLOAD_PUBLIC_PHOTO", intentCategory := .STORAGE_SHELL,
      collapseLayer := .CURVATURE, entropyThreshold := 2/10,
      description := "Upload public profile photo",
      requiresAuthentication := true, reversible := true },
    { intentGlyph := "STORAGE_UPLOAD_PRIVATE_FILE", intentCategory := .STORAGE_SHELL,
      collapseLayer := .CURVATURE, entropyThreshold := 25/100,
      description := "Upload private user file",
      requiresAuthentication := true, reversible := true },
    { intentGlyph := "STORAGE_DELETE_FILE", intentCategory := .STORAGE_SHELL,
      collapseLayer := .BOUNDARY, entropyThreshold := 3/10,
      description := "Remove file from storage",
      requiresAuthentication := true, reversible := false },
    { intentGlyph := "NAVIGATE_TO_LOGIN", intentCategory := .NAVIGATION_GRAFT,
      collapseLayer := .GRADIENT, entropyThreshold := 2/100,
      description := "Navigate to login view",
      requiresAuthentication := false, reversible := true },
    { intentGlyph := "NAVIGATE_TO_SIGNUP", intentCategory := .NAVIGATION_GRAFT,
      collapseLayer := .GRADIENT, entropyThreshold := 2/100,
      description := "Navigate to signup view",
      requiresAuthentication := false, reversible := true },
    { intentGlyph := "NAVIGATE_TO_MAIN_APP", intentCategory := .NAVIGATION_GRAFT,
      collapseLayer := .CURVATURE, entropyThreshold := 5/100,
      description := "Navigate to main app",
      requiresAuthentication := true, reversible := true },
    { intentGlyph := "NAVIGATE_TO_FORGOT_PASSWORD", intentCategory := .NAVIGATION_GRAFT,
      collapseLayer := .CURL, entropyThreshold := 2/100,
      description := "Navigate to password reset",
      requiresAuthentication := false, reversible := true },
    { intentGlyph := "NAVIGATE_TO_VERIFY_EMAIL", intentCategory := .NAVIGATION_GRAFT,
      collapseLayer := .CURL, entropyThreshold := 2/100,
      description := "Navigate to email verification",
      requiresAuthentication := true, reversible := true } ]

/-- Source `isIntentPermitted`: membership test over the glossary. -/
def isIntentPermitted (intentGlyph : String) : Bool :=
  INTENT_GLOSSARY.any (fun intent => intent.intentGlyph == intentGlyph)

/-- Source `getIntentDeclaration`: lookup, `none` when absent. -/
def getIntentDeclaration (intentGlyph : String) : Option IntentDeclaration :=
  INTENT_GLOSSARY.find? (fun intent => intent.intentGlyph == intentGlyph)

/-- Source `intentRequiresAuth`: declared flag, defaulting to `true`. -/
def intentRequiresAuth (intentGlyph : String) : Bool :=
  ((getIntentDeclaration intentGlyph).map (fun i => i.requiresAuthentication)).getD true

/-- Source `getEntropyThreshold`: declared threshold, defaulting to 1. -/
def getEntropyThreshold (intentGlyph : String) : ℚ :=
  ((getIntentDeclaration intentGlyph).map (fun i => i.entropyThreshold)).getD 1

-- ═══════════════════════════════════════════════════════════════════════════
-- Shell Memory runtime: mutable fields of class ShellMemoryRuntime
-- ═══════════════════════════════════════════════════════════════════════════

/-- Mutable fields of the `ShellMemoryRuntime` singleton: the state snapshot,
the insertion-ordered set of subscriber callbacks (identified by `Nat` ids),
and the drift history window. -/
structure Runtime where
  state : PhaseMemoryState
  subscribers : List Nat
  driftHistory : List ℚ
deriving DecidableEq, Repr

/-- Runtime as built by the private constructor: initial snapshot, no
subscribers, empty drift history. -/
def initialRuntime : Runtime :=
  { state := INITIAL_PHASE_MEMORY, subscribers := [], driftHistory := [] }

/-- Source `getState`. -/
def getState (rt : Runtime) : PhaseMemoryState := rt.state

/-- Source `isUserAuthenticated` convenience accessor. -/
def isUserAuthenticated (rt : Runtime) : Bool :=
  rt.state.authPhase.isAuthenticated

/-- Per-mutation drift increment computed inside source `calculateDrift`:
0.3 for an auth flip, 0.1 for a view transition, 0.2 for an error flip. -/
def driftScore (previous current : PhaseMemoryState) : ℚ :=
  (if previous.authPhase.isAuthenticated ≠ current.authPhase.isAuthenticated
    then 3/10 else 0)
  + (if previous.uiPhase.currentView ≠ current.uiPhase.currentView
    then 1/10 else 0)
  + (if previous.errorPhase.hasError ≠ current.errorPhase.hasError
    then 2/10 else 0)

/-- History update of source `calculateDrift`: push, then `shift()` once the
window exceeds 10 entries. -/
def pushDrift (history : List ℚ) (score : ℚ) : List ℚ :=
  let pushed := history ++ [score]
  if pushed.length > 10 then pushed.drop 1 else pushed

/-- Source `calculateDrift`, acting on a runtime whose `state` is already the
new snapshot, comparing it against the snapshot before the mutation. -/
def calculateDrift (previousState : PhaseMemoryState) (rt : Runtime) : Runtime :=
  { rt with driftHistory := pushDrift rt.driftHistory (driftScore previousState rt.state) }

/-- Average of a drift window: 0 when empty, else sum over length
(the body of source `getAverageDrift`). -/
def driftAverage (history : List ℚ) : ℚ :=
  if history.isEmpty then 0 else history.sum / history.length

/-- Source `getAverageDrift` (named `getSmoothedInstability` by the spec). -/
def getAverageDrift (rt : Runtime) : ℚ :=
  driftAverage rt.driftHistory

/-- Source `notifySubscribers` body: `forEach` over the subscriber set, each
callback wrapped in try/catch so a throwing callback is logged and skipped,
never aborting the loop. `cbs` gives the behaviour of each callback on the frozen
current state (`Except.error` models a throw); the result records, in order,
each invoked callback with its outcome. -/
def notifySubscribers (cbs : Nat → Except String Unit) :
    List Nat → List (Nat × Except String Unit)
  | [] => []
  | c :: rest => (c, cbs c) :: notifySubscribers cbs rest

-- ═══════════════════════════════════════════════════════════════════════════
-- Shell Memory runtime: update records (TypeScript Partial arguments)
-- ═══════════════════════════════════════════════════════════════════════════

/-- Argument of source `setAuthPhase`: a record with every `AuthPhaseMemory`
field optional. -/
structure AuthPhaseUpdate where
  currentUser : Option (Option User) := none
  isAuthenticated : Option Bool := none
  emailVerified : Option Bool := none
  authLoadingComplete : Option Bool := none
  lastAuthEventTimestamp : Option (Option Nat) := none
deriving DecidableEq, Repr

/-- Argument of source `setUIPhase`: a record with every `UIPhaseMemory`
field optional. -/
structure UIPhaseUpdate where
  isLoading : Option Bool := none
  currentView : Option ViewGlyph := none
  previousView : Option (Option ViewGlyph) := none
  formState : Option FormPhaseMemory := none
deriving DecidableEq, Repr

/-- Argument of source `setFormPhase`: a record with every `FormPhaseMemory`
field optional. -/
structure FormPhaseUpdate where
  email : Option String := none
  password : Option String := none
  confirmPassword : Option String := none
  displayName : Option String := none
deriving DecidableEq, Repr

/-- Spread-merge of a `Partial` auth update over the prior auth phase. -/
def mergeAuthPhase (p : AuthPhaseMemory) (u : AuthPhaseUpdate) : AuthPhaseMemory :=
  { currentUser := u.currentUser.getD p.currentUser
    isAuthenticated := u.isAuthenticated.getD p.isAuthenticated
    emailVerified := u.emailVerified.getD p.emailVerified
    authLoadingComplete := u.authLoadingComplete.getD p.authLoadingComplete
    lastAuthEventTimestamp := u.lastAuthEventTimestamp.getD p.lastAuthEventTimestamp }

/-- Spread-merge of a `Partial` UI update over the prior UI phase, before the
view-history fix. -/
def mergeUIPhase (p : UIPhaseMemory) (u : UIPhaseUpdate) : UIPhaseMemory :=
  { isLoading := u.isLoading.getD p.isLoading
    currentView := u.currentView.getD p.currentView
    previousView := u.previousView.getD p.previousView
    formState := u.formState.getD p.formState }

/-- Spread-merge of a `Partial` form update over the prior form state. -/
def mergeFormPhase (p : FormPhaseMemory) (u : FormPhaseUpdate) : FormPhaseMemory :=
  { email := u.email.getD p.email
    password := u.password.getD p.password
    confirmPassword := u.confirmPassword.getD p.confirmPassword
    displayName := u.displayName.getD p.displayName }

-- ═══════════════════════════════════════════════════════════════════════════
-- Shell Memory runtime: mutators. Each returns the new runtime together with
-- the list of subscriber ids its notifySubscribers call iterates over
-- ([] when the source does not notify).
-- ═══════════════════════════════════════════════════════════════════════════

/-- Source `setAuthPhase` (named `updateAuth` by the spec): merge, bump the logical
clock, recompute drift, notify. -/
def setAuthPhase (now : Nat) (update : AuthPhaseUpdate) (rt : Runtime) :
    Runtime × List Nat :=
  let previousState := rt.state
  let newState :=
    { rt.state with
      recursionTimestamp := now
      authPhase := mergeAuthPhase rt.state.authPhase update }
  let rt1 := calculateDrift previousState { rt with state := newState }
  (rt1, rt1.subscribers)

/-- Source `setUIPhase` (named `updateUI` by the spec): merge, and when the update
carries a `currentView` different from the present one, move the prior view
into `previousView`. -/
def setUIPhase (now : Nat) (update : UIPhaseUpdate) (rt : Runtime) :
    Runtime × List Nat :=
  let previousState := rt.state
  let merged := mergeUIPhase rt.state.uiPhase update
  let newUIPhase :=
    match update.currentView with
    | some v =>
        if v ≠ rt.state.uiPhase.currentView then
          { merged with previousView := some rt.state.uiPhase.currentView }
        else merged
    | none => merged
  let newState :=
    { rt.state with recursionTimestamp := now, uiPhase := newUIPhase }
  let rt1 := calculateDrift previousState { rt with state := newState }
  (rt1, rt1.subscribers)

/-- Source `setFormPhase` (named `updateForm` by the spec): merge into the form
fields only; no drift recomputation and no subscriber notification. -/
def setFormPhase (now : Nat) (update : FormPhaseUpdate) (rt : Runtime) :
    Runtime × List Nat :=
  let newState :=
    { rt.state with
      recursionTimestamp := now
      uiPhase :=
        { rt.state.uiPhase with
          formState := mergeFormPhase rt.state.uiPhase.formState update } }
  ({ rt with state := newState }, [])

/-- Source `setError`: record the error, force stability to `DRIFT_DETECTED`,
recompute drift, notify. -/
def setError (now : Nat) (code message : String) (source : ErrorSourceGlyph)
    (rt : Runtime) : Runtime × List Nat :=
  let previousState := rt.state
  let newState :=
    { rt.state with
      recursionTimestamp := now
      phaseStability := .DRIFT_DETECTED
      errorPhase :=
        { hasError := true
          errorCode := some code
          errorMessage := some message
          errorTimestamp := some now
          errorSource := some source } }
  let rt1 := calculateDrift previousState { rt with state := newState }
  (rt1, rt1.subscribers)

/-- Source `clearError`: reset the error phase, stability becomes `STABLE`
when auth loading has completed and `TRANSITIONING` otherwise; notifies but
does not recompute drift. -/
def clearError (now : Nat) (rt : Runtime) : Runtime × List Nat :=
  let newState :=
    { rt.state with
      recursionTimestamp := now
      phaseStability :=
        if rt.state.authPhase.authLoadingComplete then .STABLE else .TRANSITIONING
      errorPhase :=
        { hasError := false
          errorCode := none
          errorMessage := none
          errorTimestamp := none
          errorSource := none } }
  ({ rt with state := newState }, rt.subscribers)

/-- Source `setPhaseStability` (named `setStability` by the spec): direct override;
notifies but does not recompute drift. -/
def setPhaseStability (now : Nat) (stability : PhaseStability) (rt : Runtime) :
    Runtime × List Nat :=
  let newState :=
    { rt.state with recursionTimestamp := now, phaseStability := stability }
  ({ rt with state := newState }, rt.subscribers)

/-- Source `reset`: restore the initial snapshot, clear the drift history,
notify. -/
def reset (now : Nat) (rt : Runtime) : Runtime × List Nat :=
  ({ state := { INITIAL_PHASE_MEMORY with recursionTimestamp := now }
     subscribers := rt.subscribers
     driftHistory := [] }, rt.subscribers)

/-- Source `subscribe`: `Set.add` keeps insertion order and ignores a
callback already present. -/
def subscribe (c : Nat) (rt : Runtime) : Runtime :=
  if c ∈ rt.subscribers then rt
  else { rt with subscribers := rt.subscribers ++ [c] }

/-- Unsubscribe closure returned by source `subscribe`: `Set.delete`. -/
def unsubscribe (c : Nat) (rt : Runtime) : Runtime :=
  { rt with subscribers := rt.subscribers.erase c }

-- ═══════════════════════════════════════════════════════════════════════════
-- Store operations as data, for theorems quantifying over call sequences
-- ═══════════════════════════════════════════════════════════════════════════

/-- One call to a mutating store operation, carrying its clock reading. -/
inductive StoreOp where
  | setAuthPhase (now : Nat) (update : AuthPhaseUpdate)
  | setUIPhase (now : Nat) (update : UIPhaseUpdate)
  | setFormPhase (now : Nat) (update : FormPhaseUpdate)
  | setError (now : Nat) (code message : String) (source : ErrorSourceGlyph)
  | clearError (now : Nat)
  | setPhaseStability (now : Nat) (stability : PhaseStability)
  | reset (now : Nat)
deriving DecidableEq, Repr

/-- Dispatch a `StoreOp` to the corresponding mutator. -/
def applyStoreOp (op : StoreOp) (rt : Runtime) : Runtime × List Nat :=
  match op with
  | .setAuthPhase now u => setAuthPhase now u rt
  | .setUIPhase now u => setUIPhase now u rt
  | .setFormPhase now u => setFormPhase now u rt
  | .setError now c m s => setError now c m s rt
  | .clearError now => clearError now rt
  | .setPhaseStability now s => setPhaseStability now s rt
  | .reset now => reset now rt

/-- Run a sequence of store operations. -/
def applyStoreOps (ops : List StoreOp) (rt : Runtime) : Runtime :=
  ops.foldl (fun rt op => (applyStoreOp op rt).1) rt

/-- The four merge-style operations named by the partial-merge property. -/
def isMergeOp : StoreOp → Bool
  | .setAuthPhase .. => true
  | .setUIPhase .. => true
  | .setFormPhase .. => true
  | .setError .. => true
  | _ => false

/-- The operations whose source body calls `notifySubscribers`
(all of them except `setFormPhase`). -/
def isNotifyingOp : StoreOp → Bool
  | .setFormPhase .. => false
  | _ => true

/-- Value an operation writes into `authPhase.isAuthenticated`, if any. -/
def writesIsAuthenticated : StoreOp → Option Bool
  | .setAuthPhase _ u => u.isAuthenticated
  | _ => none

/-- Value an operation writes into `authPhase.emailVerified`, if any. -/
def writesEmailVerified : StoreOp → Option Bool
  | .setAuthPhase _ u => u.emailVerified
  | _ => none

/-- Value an operation writes into `uiPhase.isLoading`, if any. -/
def writesIsLoading : StoreOp → Option Bool
  | .setUIPhase _ u => u.isLoading
  | _ => none

/-- Value an operation writes into `uiPhase.currentView`, if any. -/
def writesCurrentView : StoreOp → Option ViewGlyph
  | .setUIPhase _ u => u.currentView
  | _ => none

/-- Value an operation writes into `formState.email`, if any
(`setUIPhase` replaces the whole form record when its update carries one). -/
def writesEmail : StoreOp → Option String
  | .setUIPhase _ u => u.formState.map (fun f => f.email)
  | .setFormPhase _ u => u.email
  | _ => none

/-- Value an operation writes into `formState.password`, if any. -/
def writesPassword : StoreOp → Option String
  | .setUIPhase _ u => u.formState.map (fun f => f.password)
  | .setFormPhase _ u => u.password
  | _ => none

/-- Value an operation writes into `errorPhase.hasError`, if any. -/
def writesHasError : StoreOp → Option Bool
  | .setError .. => some true
  | _ => none

/-- Value an operation writes into `errorPhase.errorCode`, if any. -/
def writesErrorCode : StoreOp → Option (Option String)
  | .setError _ c _ _ => some (some c)
  | _ => none

/-- Value an operation writes into `errorPhase.errorMessage`, if any. -/
def writesErrorMessage : StoreOp → Option (Option String)
  | .setError _ _ m _ => some (some m)
  | _ => none

/-- Last-writer-wins tracking of one field across a call sequence: fold that
replaces the running value whenever an operation writes the field. -/
def lastValue {β : Type} (w : StoreOp → Option β) (ops : List StoreOp) (init : β) : β :=
  ops.foldl (fun v op => (w op).getD v) init

-- ═══════════════════════════════════════════════════════════════════════════
-- Recursion Executor: 0.4.a_fileRecursionExecutor.interface.ts
-- ═══════════════════════════════════════════════════════════════════════════

/-- Source `RecursionErrorCode` (spec taxonomy: `INTENT_NOT_PERMITTED` is
called `INTENT_NOT_DECLARED` there and `ENTROPY_THRESHOLD_EXCEEDED` is
called `INSTABILITY_EXCEEDED`). -/
inductive RecursionErrorCode where
  | INTENT_NOT_PERMITTED
  | AUTH_REQUIRED
  | ENTROPY_THRESHOLD_EXCEEDED
  | EXECUTION_FAILED
  | PHASE_CONFLICT
  | UNKNOWN_ERROR
deriving DecidableEq, Repr

/-- Source `RecursionError`. -/
structure RecursionError where
  code : RecursionErrorCode
  message : String
  intentGlyph : String
  timestamp : Nat
deriving DecidableEq, Repr

/-- Source `RecursionResult<T>`. -/
inductive RecursionResult (α : Type) where
  | success (data : α) (drift : ℚ)
  | failure (error : RecursionError) (drift : ℚ)
deriving DecidableEq, Repr

/-- Discriminant of a recursion result. -/
def RecursionResult.isOk {α : Type} : RecursionResult α → Bool
  | .success .. => true
  | .failure .. => false

/-- Error code carried by a failed result. -/
def RecursionResult.errorCode {α : Type} : RecursionResult α → Option RecursionErrorCode
  | .success .. => none
  | .failure e _ => some e.code

/-- Error message carried by a failed result. -/
def RecursionResult.errorMessage {α : Type} : RecursionResult α → Option String
  | .success .. => none
  | .failure e _ => some e.message

/-- Success payload carried by a successful result. -/
def RecursionResult.successData {α : Type} : RecursionResult α → Option α
  | .success v _ => some v
  | .failure .. => none

/-- Drift reading carried by either kind of result. -/
def RecursionResult.driftOf {α : Type} : RecursionResult α → ℚ
  | .success _ d => d
  | .failure _ d => d

/-- Source `ExecutionLogEntry`. -/
structure ExecutionLogEntry where
  intentGlyph : String
  success : Bool
  duration : Nat
  timestamp : Nat
  errorCode : Option RecursionErrorCode
deriving DecidableEq, Repr

/-- Source `maxLogEntries`. -/
def maxLogEntries : Nat := 100

/-- Source `logExecution` effect on the audit log: push the entry, then
`shift()` once the log exceeds `maxLogEntries`. -/
def logExecution (log : List ExecutionLogEntry) (entry : ExecutionLogEntry) :
    List ExecutionLogEntry :=
  let pushed := log ++ [entry]
  if pushed.length > maxLogEntries then pushed.drop 1 else pushed

/-- Source `getExecutionLog` (named `getLog` by the spec): a copy of the log,
oldest first, most recent last. -/
def getExecutionLog (log : List ExecutionLogEntry) : List ExecutionLogEntry :=
  log

/-- Source `mapIntentToErrorSource`: naming-convention mapping from the
leading characters of the intent glyph to an error-source tag. -/
def mapIntentToErrorSource (intentGlyph : String) : ErrorSourceGlyph :=
  if "AUTH_LOGIN".data.isPrefixOf intentGlyph.data then .ERROR_AUTH_LOGIN
  else if "AUTH_SIGNUP".data.isPrefixOf intentGlyph.data then .ERROR_AUTH_SIGNUP
  else if "AUTH_SIGNOUT".data.isPrefixOf intentGlyph.data then .ERROR_AUTH_SIGNOUT
  else if "AUTH_SEND_PASSWORD".data.isPrefixOf intentGlyph.data then .ERROR_AUTH_PASSWORD_RESET
  else if "AUTH_SEND_EMAIL".data.isPrefixOf intentGlyph.data then .ERROR_AUTH_EMAIL_VERIFICATION
  else if "STORAGE_UPLOAD".data.isPrefixOf intentGlyph.data then .ERROR_STORAGE_UPLOAD
  else if "STORAGE_DELETE".data.isPrefixOf intentGlyph.data then .ERROR_STORAGE_DELETE
  else .ERROR_UNKNOWN

/-- Output of one `execute` call: the returned result, the shell memory and
audit log afterwards, and how many times the supplied executor was invoked
(0 on admission rejection, 1 once gate 4 is reached). -/
structure ExecOutput (α : Type) where
  result : RecursionResult α
  runtime : Runtime
  log : List ExecutionLogEntry
  invocations : Nat

/-- Source `execute`: the four-gate admission pipeline. `startTime` is the
`Date.now()` read on entry and `now` the clock at completion; the executor
acts on the shell memory and either returns a value or throws. -/
def execute {α : Type} (startTime now : Nat) (intentGlyph : String)
    (executor : Runtime → Except String α × Runtime)
    (rt : Runtime) (log : List ExecutionLogEntry) : ExecOutput α :=
  let startDrift := getAverageDrift rt
  if isIntentPermitted intentGlyph = false then
    { result := .failure
        { code := .INTENT_NOT_PERMITTED
          message := "Intent " ++ intentGlyph ++ " is not registered in the Intent Glossary. Only declared intents may execute. Zero ghosts."
          intentGlyph := intentGlyph
          timestamp := now } startDrift
      runtime := rt
      log := logExecution log
        { intentGlyph := intentGlyph, success := false
          duration := now - startTime, timestamp := now
          errorCode := some .INTENT_NOT_PERMITTED }
      invocations := 0 }
  else if intentRequiresAuth intentGlyph && !(isUserAuthenticated rt) then
    { result := .failure
        { code := .AUTH_REQUIRED
          message := "Intent " ++ intentGlyph ++ " requires authentication. User must pass through Auth Gate first."
          intentGlyph := intentGlyph
          timestamp := now } startDrift
      runtime := rt
      log := logExecution log
        { intentGlyph := intentGlyph, success := false
          duration := now - startTime, timestamp := now
          errorCode := some .AUTH_REQUIRED }
      invocations := 0 }
  else
    let currentDrift := getAverageDrift rt
    let entropyThreshold := getEntropyThreshold intentGlyph
    if currentDrift > entropyThreshold * 2 then
      { result := .failure
          { code := .ENTROPY_THRESHOLD_EXCEEDED
            message := "System entropy exceeds safe threshold for intent " ++ intentGlyph ++ ". Wait for system stabilization."
            intentGlyph := intentGlyph
            timestamp := now } currentDrift
        runtime := rt
        log := logExecution log
          { intentGlyph := intentGlyph, success := false
            duration := now - startTime, timestamp := now
            errorCode := some .ENTROPY_THRESHOLD_EXCEEDED }
        invocations := 0 }
    else
      let rt1 := (setPhaseStability now .TRANSITIONING rt).1
      match executor rt1 with
      | (Except.ok value, rt2) =>
          let finalDrift := getAverageDrift rt2
          let rt3 := (setPhaseStability now .STABLE rt2).1
          { result := .success value finalDrift
            runtime := rt3
            log := logExecution log
              { intentGlyph := intentGlyph, success := true
                duration := now - startTime, timestamp := now
                errorCode := none }
            invocations := 1 }
      | (Except.error errorMessage, rt2) =>
          let rt3 := (setError now "EXECUTION_FAILED" errorMessage
            (mapIntentToErrorSource intentGlyph) rt2).1
          let rt4 := (setPhaseStability now .DRIFT_DETECTED rt3).1
          { result := .failure
              { code := .EXECUTION_FAILED
                message := "Intent " ++ intentGlyph ++ " execution failed: " ++ errorMessage
                intentGlyph := intentGlyph
                timestamp := now } (getAverageDrift rt4)
            runtime := rt4
            log := logExecution log
              { intentGlyph := intentGlyph, success := false
                duration := now - startTime, timestamp := now
                errorCode := some .EXECUTION_FAILED }
            invocations := 1 }


-- ═══════════════════════════════════════════════════════════════════════════
-- Definitions supporting the drift-accounting and witness statements
-- ═══════════════════════════════════════════════════════════════════════════

/-- One store mutation leaves the three drift-tracked fields (the auth flag,
the current view, the error flag) unchanged. -/
def NoChangeStep (op : StoreOp) (rt : Runtime) : Prop :=
  (applyStoreOp op rt).1.state.authPhase.isAuthenticated =
    rt.state.authPhase.isAuthenticated ∧
  (applyStoreOp op rt).1.state.uiPhase.currentView =
    rt.state.uiPhase.currentView ∧
  (applyStoreOp op rt).1.state.errorPhase.hasError =
    rt.state.errorPhase.hasError

/-- Every mutation of the sequence is a no-change mutation at the state it
actually runs against. -/
def NoChangeSeq : List StoreOp → Runtime → Prop
  | [], _ => True
  | op :: ops, rt => NoChangeStep op rt ∧ NoChangeSeq ops (applyStoreOp op rt).1

/-- Sample dummy executor used by witnesses. -/
def okExecutor : Runtime → Except String Nat × Runtime :=
  fun r => (Except.ok 42, r)

/-- Sample throwing executor used by witnesses. -/
def failingExecutor : Runtime → Except String Nat × Runtime :=
  fun r => (Except.error "bad credentials", r)

/-- Sample audit entry used by the C8 witness. -/
def sampleEntry : ExecutionLogEntry :=
  { intentGlyph := "AUTH_SIGNOUT", success := true, duration := 1,
    timestamp := 1, errorCode := none }

-- ═══════════════════════════════════════════════════════════════════════════
-- Shared helper lemmas
-- ═══════════════════════════════════════════════════════════════════════════

/-- A successful glossary lookup makes the permission check succeed. -/
lemma isIntentPermitted_of_getIntentDeclaration {g : String} {d : IntentDeclaration}
    (h : getIntentDeclaration g = some d) : isIntentPermitted g = true := by
  have hm := List.mem_of_find?_eq_some h
  have hp := List.find?_some h
  exact List.any_eq_true.mpr ⟨d, hm, hp⟩

/-- For a declared intent the auth requirement is the declaration flag. -/
lemma intentRequiresAuth_of_getIntentDeclaration {g : String} {d : IntentDeclaration}
    (h : getIntentDeclaration g = some d) :
    intentRequiresAuth g = d.requiresAuthentication := by
  unfold intentRequiresAuth
  rw [h]
  rfl

/-- For a declared intent the entropy threshold is the declaration value. -/
lemma getEntropyThreshold_of_getIntentDeclaration {g : String} {d : IntentDeclaration}
    (h : getIntentDeclaration g = some d) :
    getEntropyThreshold g = d.entropyThreshold := by
  unfold getEntropyThreshold
  rw [h]
  rfl

-- ═══════════════════════════════════════════════════════════════════════════
-- C1: unknown intents are rejected with the not-declared code, unexecuted
-- ═══════════════════════════════════════════════════════════════════════════

/-- C1: for every intent name absent from the Intent Glossary and every
supplied operation, `execute` returns a failure whose code is the
not-declared code (source constant `INTENT_NOT_PERMITTED`, named
`INTENT_NOT_DECLARED` by the spec) and never invokes the supplied operation. -/
theorem c1_unknown_intent_rejected {α : Type} (startTime now : Nat)
    (intentGlyph : String) (executor : Runtime → Except String α × Runtime)
    (rt : Runtime) (log : List ExecutionLogEntry)
    (h : isIntentPermitted intentGlyph = false) :
    (execute startTime now intentGlyph executor rt log).result.isOk = false ∧
    (execute startTime now intentGlyph executor rt log).result.errorCode =
      some RecursionErrorCode.INTENT_NOT_PERMITTED ∧
    (execute startTime now intentGlyph executor rt log).invocations = 0 := by
  simp [execute, h, RecursionResult.isOk, RecursionResult.errorCode]

/-- Witness for C1 at the undeclared name TELEPORT. -/
theorem c1_witness :
    isIntentPermitted "TELEPORT" = false ∧
    (execute 0 1 "TELEPORT" okExecutor initialRuntime []).result.errorCode =
      some RecursionErrorCode.INTENT_NOT_PERMITTED ∧
    (execute 0 1 "TELEPORT" okExecutor initialRuntime []).invocations = 0 := by
  have h : isIntentPermitted "TELEPORT" = false := by decide
  have hc := c1_unknown_intent_rejected 0 1 "TELEPORT" okExecutor initialRuntime [] h
  exact ⟨h, hc.2.1, hc.2.2⟩

-- ═══════════════════════════════════════════════════════════════════════════
-- C2: auth-requiring intents fail with AUTH_REQUIRED when unauthenticated
-- ═══════════════════════════════════════════════════════════════════════════

/-- C2: for every intent whose declaration requires an authenticated actor,
calling `execute` while the store is unauthenticated returns AUTH_REQUIRED,
never invokes the supplied operation, and leaves the shell memory unchanged
(the returned runtime is the argument runtime itself). -/
theorem c2_auth_required {α : Type} (startTime now : Nat) (intentGlyph : String)
    (executor : Runtime → Except String α × Runtime)
    (rt : Runtime) (log : List ExecutionLogEntry) (d : IntentDeclaration)
    (hd : getIntentDeclaration intentGlyph = some d)
    (hreq : d.requiresAuthentication = true)
    (hun : rt.state.authPhase.isAuthenticated = false) :
    (execute startTime now intentGlyph executor rt log).result.isOk = false ∧
    (execute startTime now intentGlyph executor rt log).result.errorCode =
      some RecursionErrorCode.AUTH_REQUIRED ∧
    (execute startTime now intentGlyph executor rt log).invocations = 0 ∧
    (execute startTime now intentGlyph executor rt log).runtime = rt := by
  have hperm := isIntentPermitted_of_getIntentDeclaration hd
  have hauth := (intentRequiresAuth_of_getIntentDeclaration hd).trans hreq
  simp [execute, hperm, hauth, isUserAuthenticated, hun,
    RecursionResult.isOk, RecursionResult.errorCode]

/-- Witness for C2 at the auth-requiring declared intent AUTH_SIGNOUT. -/
theorem c2_witness :
    getIntentDeclaration "AUTH_SIGNOUT" = some
      { intentGlyph := "AUTH_SIGNOUT", intentCategory := .AUTH_GATE,
        collapseLayer := .GRADIENT, entropyThreshold := 5/100,
        description := "Dissolve active session",
        requiresAuthentication := true, reversible := true } ∧
    initialRuntime.state.authPhase.isAuthenticated = false ∧
    (execute 0 1 "AUTH_SIGNOUT" okExecutor initialRuntime []).result.errorCode =
      some RecursionErrorCode.AUTH_REQUIRED ∧
    (execute 0 1 "AUTH_SIGNOUT" okExecutor initialRuntime []).invocations = 0 ∧
    (execute 0 1 "AUTH_SIGNOUT" okExecutor initialRuntime []).runtime = initialRuntime := by
  have hd : getIntentDeclaration "AUTH_SIGNOUT" = some
      { intentGlyph := "AUTH_SIGNOUT", intentCategory := .AUTH_GATE,
        collapseLayer := .GRADIENT, entropyThreshold := 5/100,
        description := "Dissolve active session",
        requiresAuthentication := true, reversible := true } := rfl
  have hun : initialRuntime.state.authPhase.isAuthenticated = false := by decide
  have hc := c2_auth_required 0 1 "AUTH_SIGNOUT" okExecutor initialRuntime [] _ hd rfl hun
  exact ⟨hd, hun, hc.2.1, hc.2.2.1, hc.2.2.2⟩

-- ═══════════════════════════════════════════════════════════════════════════
-- C3: failing operations become EXECUTION_FAILED, recorded in the store
-- ═══════════════════════════════════════════════════════════════════════════

/-- C3: for every declared, admitted intent whose operation raises a failure,
`execute` returns EXECUTION_FAILED preserving the original error message as a
suffix, writes the error into the store (hasError true, the original message,
a source tag from the naming-convention mapping), leaves stability at
`DRIFT_DETECTED` (named DRIFTING by the spec), and appends a failed audit entry. -/
theorem c3_execution_failed {α : Type} (startTime now : Nat) (intentGlyph : String)
    (executor : Runtime → Except String α × Runtime)
    (rt rt2 : Runtime) (log : List ExecutionLogEntry) (msg : String)
    (hperm : isIntentPermitted intentGlyph = true)
    (hauth : (intentRequiresAuth intentGlyph && !(isUserAuthenticated rt)) = false)
    (hdrift : ¬ getAverageDrift rt > getEntropyThreshold intentGlyph * 2)
    (hexec : executor (setPhaseStability now PhaseStability.TRANSITIONING rt).1 =
      (Except.error msg, rt2)) :
    (execute startTime now intentGlyph executor rt log).result.isOk = false ∧
    (execute startTime now intentGlyph executor rt log).result.errorCode =
      some RecursionErrorCode.EXECUTION_FAILED ∧
    (execute startTime now intentGlyph executor rt log).result.errorMessage =
      some ("Intent " ++ intentGlyph ++ " execution failed: " ++ msg) ∧
    (execute startTime now intentGlyph executor rt log).runtime.state.errorPhase.hasError
      = true ∧
    (execute startTime now intentGlyph executor rt log).runtime.state.errorPhase.errorCode
      = some "EXECUTION_FAILED" ∧
    (execute startTime now intentGlyph executor rt log).runtime.state.errorPhase.errorMessage
      = some msg ∧
    (execute startTime now intentGlyph executor rt log).runtime.state.errorPhase.errorSource
      = some (mapIntentToErrorSource intentGlyph) ∧
    (execute startTime now intentGlyph executor rt log).runtime.state.phaseStability
      = PhaseStability.DRIFT_DETECTED ∧
    (execute startTime now intentGlyph executor rt log).log = logExecution log
      { intentGlyph := intentGlyph, success := false, duration := now - startTime,
        timestamp := now, errorCode := some RecursionErrorCode.EXECUTION_FAILED } := by
  have hexec' : executor
      { state :=
          { rt.state with
              recursionTimestamp := now
              phaseStability := PhaseStability.TRANSITIONING }
        subscribers := rt.subscribers
        driftHistory := rt.driftHistory } =
      (Except.error msg, rt2) := hexec
  refine ⟨?_, ?_, ?_, ?_, ?_, ?_, ?_, ?_, ?_⟩ <;>
    simp [execute, hperm, hauth, hdrift, hexec, hexec', setError, setPhaseStability,
      calculateDrift, RecursionResult.isOk, RecursionResult.errorCode,
      RecursionResult.errorMessage]

/-- Witness for C3: AUTH_LOGIN_WITH_EMAIL with a rejecting operation. -/
theorem c3_witness :
    isIntentPermitted "AUTH_LOGIN_WITH_EMAIL" = true ∧
    (intentRequiresAuth "AUTH_LOGIN_WITH_EMAIL" && !(isUserAuthenticated initialRuntime))
      = false ∧
    (¬ getAverageDrift initialRuntime > getEntropyThreshold "AUTH_LOGIN_WITH_EMAIL" * 2) ∧
    failingExecutor (setPhaseStability 1 PhaseStability.TRANSITIONING initialRuntime).1 =
      (Except.error "bad credentials",
        (setPhaseStability 1 PhaseStability.TRANSITIONING initialRuntime).1) ∧
    (execute 0 1 "AUTH_LOGIN_WITH_EMAIL" failingExecutor initialRuntime []).result.errorCode
      = some RecursionErrorCode.EXECUTION_FAILED ∧
    (execute 0 1 "AUTH_LOGIN_WITH_EMAIL" failingExecutor
      initialRuntime []).runtime.state.errorPhase.errorMessage = some "bad credentials" ∧
    (execute 0 1 "AUTH_LOGIN_WITH_EMAIL" failingExecutor
      initialRuntime []).runtime.state.phaseStability = PhaseStability.DRIFT_DETECTED := by
  have hperm : isIntentPermitted "AUTH_LOGIN_WITH_EMAIL" = true := by decide
  have hauth : (intentRequiresAuth "AUTH_LOGIN_WITH_EMAIL" &&
      !(isUserAuthenticated initialRuntime)) = false := by decide
  have h0 : getAverageDrift initialRuntime = 0 := rfl
  have ht : getEntropyThreshold "AUTH_LOGIN_WITH_EMAIL" = 1/10 := rfl
  have hdrift : ¬ getAverageDrift initialRuntime >
      getEntropyThreshold "AUTH_LOGIN_WITH_EMAIL" * 2 := by
    rw [h0, ht]
    norm_num
  have hexec : failingExecutor
      (setPhaseStability 1 PhaseStability.TRANSITIONING initialRuntime).1 =
      (Except.error "bad credentials",
        (setPhaseStability 1 PhaseStability.TRANSITIONING initialRuntime).1) := rfl
  have hc := c3_execution_failed 0 1 "AUTH_LOGIN_WITH_EMAIL" failingExecutor
    initialRuntime _ [] "bad credentials" hperm hauth hdrift hexec
  exact ⟨hperm, hauth, hdrift, hexec, hc.2.1, hc.2.2.2.2.2.1, hc.2.2.2.2.2.2.2.1⟩

-- ═══════════════════════════════════════════════════════════════════════════
-- C4: successful execution brackets the operation with TRANSITIONING/STABLE
-- ═══════════════════════════════════════════════════════════════════════════

/-- C4: for every declared, admitted intent, `execute` sets stability to
`TRANSITIONING` before invoking the operation (witnessed by an operation that
reports the stability it observes), and when the operation succeeds with a
value it sets stability to `STABLE`, appends a successful audit entry, and
returns a success carrying the value and the drift measured afterwards. -/
theorem c4_success_path {α : Type} (startTime now : Nat) (intentGlyph : String)
    (executor : Runtime → Except String α × Runtime)
    (rt : Runtime) (log : List ExecutionLogEntry)
    (hperm : isIntentPermitted intentGlyph = true)
    (hauth : (intentRequiresAuth intentGlyph && !(isUserAuthenticated rt)) = false)
    (hdrift : ¬ getAverageDrift rt > getEntropyThreshold intentGlyph * 2) :
    (execute startTime now intentGlyph
        (fun r => (Except.ok r.state.phaseStability, r)) rt log).result.successData =
      some PhaseStability.TRANSITIONING ∧
    (∀ (value : α) (rt2 : Runtime),
      executor (setPhaseStability now PhaseStability.TRANSITIONING rt).1 =
        (Except.ok value, rt2) →
      (execute startTime now intentGlyph executor rt log).result.successData = some value ∧
      (execute startTime now intentGlyph executor rt log).result.driftOf =
        getAverageDrift rt2 ∧
      (execute startTime now intentGlyph executor rt log).runtime =
        (setPhaseStability now PhaseStability.STABLE rt2).1 ∧
      (execute startTime now intentGlyph executor rt log).runtime.state.phaseStability =
        PhaseStability.STABLE ∧
      (execute startTime now intentGlyph executor rt log).log = logExecution log
        { intentGlyph := intentGlyph, success := true, duration := now - startTime,
          timestamp := now, errorCode := none }) := by
  constructor
  · simp [execute, hperm, hauth, hdrift, setPhaseStability, RecursionResult.successData]
  · intro value rt2 hexec
    have hexec' : executor
        { state :=
            { rt.state with
                recursionTimestamp := now
                phaseStability := PhaseStability.TRANSITIONING }
          subscribers := rt.subscribers
          driftHistory := rt.driftHistory } =
        (Except.ok value, rt2) := hexec
    refine ⟨?_, ?_, ?_, ?_, ?_⟩ <;>
      simp [execute, hperm, hauth, hdrift, hexec, hexec', setPhaseStability,
        RecursionResult.successData, RecursionResult.driftOf]

/-- Witness for C4: AUTH_LOGIN_WITH_EMAIL with a resolving operation. -/
theorem c4_witness :
    isIntentPermitted "AUTH_LOGIN_WITH_EMAIL" = true ∧
    (intentRequiresAuth "AUTH_LOGIN_WITH_EMAIL" && !(isUserAuthenticated initialRuntime))
      = false ∧
    (¬ getAverageDrift initialRuntime > getEntropyThreshold "AUTH_LOGIN_WITH_EMAIL" * 2) ∧
    okExecutor (setPhaseStability 1 PhaseStability.TRANSITIONING initialRuntime).1 =
      (Except.ok 42,
        (setPhaseStability 1 PhaseStability.TRANSITIONING initialRuntime).1) ∧
    (execute 0 1 "AUTH_LOGIN_WITH_EMAIL"
      (fun r => (Except.ok r.state.phaseStability, r))
      initialRuntime []).result.successData = some PhaseStability.TRANSITIONING ∧
    (execute 0 1 "AUTH_LOGIN_WITH_EMAIL" okExecutor initialRuntime []).result.successData
      = some 42 ∧
    (execute 0 1 "AUTH_LOGIN_WITH_EMAIL" okExecutor
      initialRuntime []).runtime.state.phaseStability = PhaseStability.STABLE := by
  have hperm : isIntentPermitted "AUTH_LOGIN_WITH_EMAIL" = true := by decide
  have hauth : (intentRequiresAuth "AUTH_LOGIN_WITH_EMAIL" &&
      !(isUserAuthenticated initialRuntime)) = false := by decide
  have h0 : getAverageDrift initialRuntime = 0 := rfl
  have ht : getEntropyThreshold "AUTH_LOGIN_WITH_EMAIL" = 1/10 := rfl
  have hdrift : ¬ getAverageDrift initialRuntime >
      getEntropyThreshold "AUTH_LOGIN_WITH_EMAIL" * 2 := by
    rw [h0, ht]
    norm_num
  have hexec : okExecutor
      (setPhaseStability 1 PhaseStability.TRANSITIONING initialRuntime).1 =
      (Except.ok 42,
        (setPhaseStability 1 PhaseStability.TRANSITIONING initialRuntime).1) := rfl
  have hc := c4_success_path 0 1 "AUTH_LOGIN_WITH_EMAIL" okExecutor
    initialRuntime [] hperm hauth hdrift
  have hb := hc.2 42 _ hexec
  exact ⟨hperm, hauth, hdrift, hexec, hc.1, hb.1, hb.2.2.2.1⟩

-- ═══════════════════════════════════════════════════════════════════════════
-- C5: the stability gate is a strict circuit-breaker at tolerance × 2
-- ═══════════════════════════════════════════════════════════════════════════

/-- C5: for every declared intent whose authentication requirement is
satisfied, smoothed instability strictly above the declared tolerance × 2
fails admission with `ENTROPY_THRESHOLD_EXCEEDED` (named
INSTABILITY_EXCEEDED by the spec) without invoking the operation; otherwise the gate
admits the intent and the operation body runs exactly once. -/
theorem c5_stability_gate {α : Type} (startTime now : Nat) (intentGlyph : String)
    (executor : Runtime → Except String α × Runtime)
    (rt : Runtime) (log : List ExecutionLogEntry) (d : IntentDeclaration)
    (hd : getIntentDeclaration intentGlyph = some d)
    (hauth : (intentRequiresAuth intentGlyph && !(isUserAuthenticated rt)) = false) :
    getEntropyThreshold intentGlyph = d.entropyThreshold ∧
    (getAverageDrift rt > d.entropyThreshold * 2 →
      (execute startTime now intentGlyph executor rt log).result.isOk = false ∧
      (execute startTime now intentGlyph executor rt log).result.errorCode =
        some RecursionErrorCode.ENTROPY_THRESHOLD_EXCEEDED ∧
      (execute startTime now intentGlyph executor rt log).invocations = 0) ∧
    (¬ getAverageDrift rt > d.entropyThreshold * 2 →
      (execute startTime now intentGlyph executor rt log).invocations = 1) := by
  have hperm := isIntentPermitted_of_getIntentDeclaration hd
  have hth := getEntropyThreshold_of_getIntentDeclaration hd
  refine ⟨hth, ?_, ?_⟩
  · intro hgt
    rw [← hth] at hgt
    refine ⟨?_, ?_, ?_⟩ <;>
      simp [execute, hperm, hauth, hgt, RecursionResult.isOk, RecursionResult.errorCode]
  · intro hle
    rw [← hth] at hle
    rcases hx : executor (setPhaseStability now PhaseStability.TRANSITIONING rt).1
      with ⟨o, rt2⟩
    cases o <;> simp [execute, hperm, hauth, hle, hx]

/-- Witness for C5 on AUTH_LOGIN_WITH_EMAIL: a volatile store is refused,
a calm store admits and runs the operation once. -/
theorem c5_witness :
    getIntentDeclaration "AUTH_LOGIN_WITH_EMAIL" = some
      { intentGlyph := "AUTH_LOGIN_WITH_EMAIL", intentCategory := .AUTH_GATE,
        collapseLayer := .GRADIENT, entropyThreshold := 1/10,
        description := "Authenticate user with email/password",
        requiresAuthentication := false, reversible := true } ∧
    (intentRequiresAuth "AUTH_LOGIN_WITH_EMAIL" &&
      !(isUserAuthenticated { initialRuntime with driftHistory := [3/10, 3/10] }))
      = false ∧
    getAverageDrift { initialRuntime with driftHistory := [3/10, 3/10] } > (1/10 : ℚ) * 2 ∧
    (execute 0 1 "AUTH_LOGIN_WITH_EMAIL" okExecutor
      { initialRuntime with driftHistory := [3/10, 3/10] } []).result.errorCode =
      some RecursionErrorCode.ENTROPY_THRESHOLD_EXCEEDED ∧
    (execute 0 1 "AUTH_LOGIN_WITH_EMAIL" okExecutor
      { initialRuntime with driftHistory := [3/10, 3/10] } []).invocations = 0 ∧
    (¬ getAverageDrift initialRuntime > (1/10 : ℚ) * 2) ∧
    (execute 0 1 "AUTH_LOGIN_WITH_EMAIL" okExecutor initialRuntime []).invocations = 1 := by
  have hd : getIntentDeclaration "AUTH_LOGIN_WITH_EMAIL" = some
      { intentGlyph := "AUTH_LOGIN_WITH_EMAIL", intentCategory := .AUTH_GATE,
        collapseLayer := .GRADIENT, entropyThreshold := 1/10,
        description := "Authenticate user with email/password",
        requiresAuthentication := false, reversible := true } := rfl
  have hauth1 : (intentRequiresAuth "AUTH_LOGIN_WITH_EMAIL" &&
      !(isUserAuthenticated { initialRuntime with driftHistory := [3/10, 3/10] }))
      = false := by decide
  have hauth0 : (intentRequiresAuth "AUTH_LOGIN_WITH_EMAIL" &&
      !(isUserAuthenticated initialRuntime)) = false := by decide
  have hgt : getAverageDrift { initialRuntime with driftHistory := [3/10, 3/10] } >
      (1/10 : ℚ) * 2 := by
    norm_num [getAverageDrift, driftAverage, initialRuntime]
  have hle : ¬ getAverageDrift initialRuntime > (1/10 : ℚ) * 2 := by
    have h0 : getAverageDrift initialRuntime = 0 := rfl
    rw [h0]
    norm_num
  have hc1 := c5_stability_gate 0 1 "AUTH_LOGIN_WITH_EMAIL" okExecutor
    { initialRuntime with driftHistory := [3/10, 3/10] } [] _ hd hauth1
  have hc2 := c5_stability_gate 0 1 "AUTH_LOGIN_WITH_EMAIL" okExecutor
    initialRuntime [] _ hd hauth0
  have hrej := hc1.2.1 hgt
  exact ⟨hd, hauth1, hgt, hrej.2.1, hrej.2.2, hle, hc2.2.2 hle⟩

-- ═══════════════════════════════════════════════════════════════════════════
-- C8: the audit log is a FIFO ring buffer capped at 100 entries
-- ═══════════════════════════════════════════════════════════════════════════

/-- Folding `logExecution` keeps exactly the most recent `maxLogEntries`
entries: the result is the suffix of the pushed sequence past the evicted
oldest entries. -/
lemma foldl_logExecution_eq (es : List ExecutionLogEntry) :
    ∀ (log : List ExecutionLogEntry), log.length ≤ maxLogEntries →
    es.foldl logExecution log =
      (log ++ es).drop (log.length + es.length - maxLogEntries) := by
  induction es with
  | nil =>
    intro log h
    simp [Nat.sub_eq_zero_of_le h]
  | cons e es ih =>
    intro log h
    rw [List.foldl_cons]
    by_cases hlen : log.length + 1 > maxLogEntries
    · have heq : log.length = maxLogEntries := le_antisymm h (by omega)
      have hcond : (log ++ [e]).length > maxLogEntries := by
        simp
        omega
      have hstep : logExecution log e = (log ++ [e]).drop 1 := by
        simp only [logExecution]
        rw [if_pos hcond]
      have hlen2 : ((log ++ [e]).drop 1).length ≤ maxLogEntries := by
        simp
        omega
      rw [hstep, ih _ hlen2]
      have hA : 1 ≤ (log ++ [e]).length := by
        simp
      rw [(List.drop_append_of_le_length hA).symm, List.drop_drop]
      have h2 : (log ++ [e]) ++ es = log ++ e :: es := by
        simp
      rw [h2]
      congr 1
      simp
      omega
    · have hcond : ¬ (log ++ [e]).length > maxLogEntries := by
        simp
        omega
      have hstep : logExecution log e = log ++ [e] := by
        simp only [logExecution]
        rw [if_neg hcond]
      have hlen2 : (log ++ [e]).length ≤ maxLogEntries := by
        simp
        omega
      rw [hstep, ih _ hlen2]
      have h2 : (log ++ [e]) ++ es = log ++ e :: es := by
        simp
      rw [h2]
      congr 1
      simp
      omega

/-- C8: the audit log never exceeds the 100-entry cap, every call to
`execute` (rejected or executed) appends exactly one entry through
`logExecution`, and pushing any sequence of entries through the log from
empty retains exactly the most recent `maxLogEntries` entries, oldest
evicted first, most recent last. -/
theorem c8_audit_log_fifo_bounded :
    (∀ (log : List ExecutionLogEntry) (entry : ExecutionLogEntry),
      log.length ≤ maxLogEntries →
      (logExecution log entry).length ≤ maxLogEntries) ∧
    (∀ entries : List ExecutionLogEntry,
      getExecutionLog (entries.foldl logExecution []) =
        entries.drop (entries.length - maxLogEntries)) ∧
    (∀ (α : Type) (startTime now : Nat) (intentGlyph : String)
      (executor : Runtime → Except String α × Runtime) (rt : Runtime)
      (log : List ExecutionLogEntry),
      ∃ entry, (execute startTime now intentGlyph executor rt log).log =
        logExecution log entry) := by
  refine ⟨?_, ?_, ?_⟩
  · intro log entry h
    by_cases hc : (log ++ [entry]).length > maxLogEntries
    · simp only [logExecution]
      rw [if_pos hc]
      simp
      omega
    · simp only [logExecution]
      rw [if_neg hc]
      simp at hc ⊢
      omega
  · intro entries
    have h := foldl_logExecution_eq entries [] (by simp)
    simpa [getExecutionLog] using h
  · intro α startTime now intentGlyph executor rt log
    simp only [execute]
    split
    · exact ⟨_, rfl⟩
    · split
      · exact ⟨_, rfl⟩
      · split
        · exact ⟨_, rfl⟩
        · split
          · exact ⟨_, rfl⟩
          · exact ⟨_, rfl⟩

/-- Witness for C8: the cap bound applied to the empty log. -/
theorem c8_witness :
    ([] : List ExecutionLogEntry).length ≤ maxLogEntries ∧
    (logExecution [] sampleEntry).length ≤ maxLogEntries :=
  ⟨by decide, c8_audit_log_fifo_bounded.1 [] sampleEntry (by decide)⟩

-- ═══════════════════════════════════════════════════════════════════════════
-- C6: partial-merge correctness (last writer wins, untouched fields persist)
-- ═══════════════════════════════════════════════════════════════════════════

/-- Field-level description of `setUIPhase`: other phases untouched, each UI
field takes the update value when supplied and the prior value otherwise. -/
lemma setUIPhase_state (now : Nat) (u : UIPhaseUpdate) (rt : Runtime) :
    (setUIPhase now u rt).1.state.authPhase = rt.state.authPhase ∧
    (setUIPhase now u rt).1.state.errorPhase = rt.state.errorPhase ∧
    (setUIPhase now u rt).1.state.uiPhase.isLoading =
      u.isLoading.getD rt.state.uiPhase.isLoading ∧
    (setUIPhase now u rt).1.state.uiPhase.currentView =
      u.currentView.getD rt.state.uiPhase.currentView ∧
    (setUIPhase now u rt).1.state.uiPhase.formState =
      u.formState.getD rt.state.uiPhase.formState := by
  rcases hu : u.currentView with _ | v
  · refine ⟨?_, ?_, ?_, ?_, ?_⟩ <;>
      simp [setUIPhase, calculateDrift, mergeUIPhase, hu]
  · by_cases hv : v ≠ rt.state.uiPhase.currentView <;>
      refine ⟨?_, ?_, ?_, ?_, ?_⟩ <;>
      simp [setUIPhase, calculateDrift, mergeUIPhase, hu, hv]

/-- Unfolding step of the last-writer fold. -/
lemma lastValue_cons {β : Type} (w : StoreOp → Option β) (op : StoreOp)
    (ops : List StoreOp) (v : β) :
    lastValue w (op :: ops) v = lastValue w ops ((w op).getD v) := rfl

/-- One merge-style operation drives each tracked field to its written value
when one is supplied and keeps the prior value otherwise. -/
lemma mergeOp_field_step (op : StoreOp) (rt : Runtime) (h : isMergeOp op = true) :
    (applyStoreOp op rt).1.state.authPhase.isAuthenticated =
      (writesIsAuthenticated op).getD rt.state.authPhase.isAuthenticated ∧
    (applyStoreOp op rt).1.state.authPhase.emailVerified =
      (writesEmailVerified op).getD rt.state.authPhase.emailVerified ∧
    (applyStoreOp op rt).1.state.uiPhase.isLoading =
      (writesIsLoading op).getD rt.state.uiPhase.isLoading ∧
    (applyStoreOp op rt).1.state.uiPhase.currentView =
      (writesCurrentView op).getD rt.state.uiPhase.currentView ∧
    (applyStoreOp op rt).1.state.uiPhase.formState.email =
      (writesEmail op).getD rt.state.uiPhase.formState.email ∧
    (applyStoreOp op rt).1.state.uiPhase.formState.password =
      (writesPassword op).getD rt.state.uiPhase.formState.password ∧
    (applyStoreOp op rt).1.state.errorPhase.hasError =
      (writesHasError op).getD rt.state.errorPhase.hasError ∧
    (applyStoreOp op rt).1.state.errorPhase.errorCode =
      (writesErrorCode op).getD rt.state.errorPhase.errorCode ∧
    (applyStoreOp op rt).1.state.errorPhase.errorMessage =
      (writesErrorMessage op).getD rt.state.errorPhase.errorMessage := by
  cases op with
  | setAuthPhase now u =>
      exact ⟨rfl, rfl, rfl, rfl, rfl, rfl, rfl, rfl, rfl⟩
  | setUIPhase now u =>
      obtain ⟨h1, h2, h3, h4, h5⟩ := setUIPhase_state now u rt
      refine ⟨?_, ?_, ?_, ?_, ?_, ?_, ?_, ?_, ?_⟩ <;>
        simp [applyStoreOp, h1, h2, h3, h4, h5, writesIsAuthenticated,
          writesEmailVerified, writesIsLoading, writesCurrentView, writesEmail,
          writesPassword, writesHasError, writesErrorCode, writesErrorMessage]
  | setFormPhase now u =>
      exact ⟨rfl, rfl, rfl, rfl, rfl, rfl, rfl, rfl, rfl⟩
  | setError now code message src =>
      exact ⟨rfl, rfl, rfl, rfl, rfl, rfl, rfl, rfl, rfl⟩
  | clearError now => simp [isMergeOp] at h
  | setPhaseStability now s => simp [isMergeOp] at h
  | reset now => simp [isMergeOp] at h

/-- C6: over any sequence of the four merge operations, each tracked field
of the final state equals the last value written to it (prior value when
untouched), and `setUIPhase` moves the displaced current view into
`previousView` whenever the update changes the view. -/
theorem c6_partial_merge_last_writer :
    (∀ (ops : List StoreOp) (rt : Runtime), (∀ op ∈ ops, isMergeOp op = true) →
      (applyStoreOps ops rt).state.authPhase.isAuthenticated =
        lastValue writesIsAuthenticated ops rt.state.authPhase.isAuthenticated ∧
      (applyStoreOps ops rt).state.authPhase.emailVerified =
        lastValue writesEmailVerified ops rt.state.authPhase.emailVerified ∧
      (applyStoreOps ops rt).state.uiPhase.isLoading =
        lastValue writesIsLoading ops rt.state.uiPhase.isLoading ∧
      (applyStoreOps ops rt).state.uiPhase.currentView =
        lastValue writesCurrentView ops rt.state.uiPhase.currentView ∧
      (applyStoreOps ops rt).state.uiPhase.formState.email =
        lastValue writesEmail ops rt.state.uiPhase.formState.email ∧
      (applyStoreOps ops rt).state.uiPhase.formState.password =
        lastValue writesPassword ops rt.state.uiPhase.formState.password ∧
      (applyStoreOps ops rt).state.errorPhase.hasError =
        lastValue writesHasError ops rt.state.errorPhase.hasError ∧
      (applyStoreOps ops rt).state.errorPhase.errorCode =
        lastValue writesErrorCode ops rt.state.errorPhase.errorCode ∧
      (applyStoreOps ops rt).state.errorPhase.errorMessage =
        lastValue writesErrorMessage ops rt.state.errorPhase.errorMessage) ∧
    (∀ (now : Nat) (u : UIPhaseUpdate) (rt : Runtime) (v : ViewGlyph),
      u.currentView = some v → v ≠ rt.state.uiPhase.currentView →
      (setUIPhase now u rt).1.state.uiPhase.previousView =
        some rt.state.uiPhase.currentView) := by
  constructor
  · intro ops
    induction ops with
    | nil =>
      intro rt _
      exact ⟨rfl, rfl, rfl, rfl, rfl, rfl, rfl, rfl, rfl⟩
    | cons op ops ih =>
      intro rt h
      have hop : isMergeOp op = true := h op (by simp)
      have hrest : ∀ o ∈ ops, isMergeOp o = true := fun o ho => h o (by simp [ho])
      obtain ⟨s1, s2, s3, s4, s5, s6, s7, s8, s9⟩ := mergeOp_field_step op rt hop
      obtain ⟨i1, i2, i3, i4, i5, i6, i7, i8, i9⟩ := ih ((applyStoreOp op rt).1) hrest
      exact ⟨i1.trans (by rw [s1, lastValue_cons]), i2.trans (by rw [s2, lastValue_cons]),
        i3.trans (by rw [s3, lastValue_cons]), i4.trans (by rw [s4, lastValue_cons]),
        i5.trans (by rw [s5, lastValue_cons]), i6.trans (by rw [s6, lastValue_cons]),
        i7.trans (by rw [s7, lastValue_cons]), i8.trans (by rw [s8, lastValue_cons]),
        i9.trans (by rw [s9, lastValue_cons])⟩
  · intro now u rt v hcv hne
    simp [setUIPhase, calculateDrift, hcv, hne]

/-- Witness for C6: an auth write followed by a view change; the auth flag
keeps the last written value, the view tracks the write, the displaced view
lands in previousView. -/
theorem c6_witness :
    isMergeOp (StoreOp.setAuthPhase 1 { isAuthenticated := some true }) = true ∧
    isMergeOp (StoreOp.setUIPhase 2 { currentView := some ViewGlyph.VIEW_MAIN_APP })
      = true ∧
    (applyStoreOps
      [StoreOp.setAuthPhase 1 { isAuthenticated := some true },
       StoreOp.setUIPhase 2 { currentView := some ViewGlyph.VIEW_MAIN_APP }]
      initialRuntime).state.authPhase.isAuthenticated =
      lastValue writesIsAuthenticated
        [StoreOp.setAuthPhase 1 { isAuthenticated := some true },
         StoreOp.setUIPhase 2 { currentView := some ViewGlyph.VIEW_MAIN_APP }]
        initialRuntime.state.authPhase.isAuthenticated ∧
    (applyStoreOps
      [StoreOp.setAuthPhase 1 { isAuthenticated := some true },
       StoreOp.setUIPhase 2 { currentView := some ViewGlyph.VIEW_MAIN_APP }]
      initialRuntime).state.uiPhase.currentView =
      lastValue writesCurrentView
        [StoreOp.setAuthPhase 1 { isAuthenticated := some true },
         StoreOp.setUIPhase 2 { currentView := some ViewGlyph.VIEW_MAIN_APP }]
        initialRuntime.state.uiPhase.currentView ∧
    ({ currentView := some ViewGlyph.VIEW_MAIN_APP } : UIPhaseUpdate).currentView =
      some ViewGlyph.VIEW_MAIN_APP ∧
    ViewGlyph.VIEW_MAIN_APP ≠ initialRuntime.state.uiPhase.currentView ∧
    (setUIPhase 2 { currentView := some ViewGlyph.VIEW_MAIN_APP }
      initialRuntime).1.state.uiPhase.previousView =
      some initialRuntime.state.uiPhase.currentView := by
  have hm : ∀ op ∈
      [StoreOp.setAuthPhase 1 { isAuthenticated := some true },
       StoreOp.setUIPhase 2 { currentView := some ViewGlyph.VIEW_MAIN_APP }],
      isMergeOp op = true := by decide
  have hc := c6_partial_merge_last_writer.1
    [StoreOp.setAuthPhase 1 { isAuthenticated := some true },
     StoreOp.setUIPhase 2 { currentView := some ViewGlyph.VIEW_MAIN_APP }]
    initialRuntime hm
  have hview := c6_partial_merge_last_writer.2 2
    { currentView := some ViewGlyph.VIEW_MAIN_APP } initialRuntime
    ViewGlyph.VIEW_MAIN_APP rfl (by decide)
  exact ⟨by decide, by decide, hc.1, hc.2.2.2.1, rfl, by decide, hview⟩

-- ═══════════════════════════════════════════════════════════════════════════
-- C7: notification policy of the store mutators
-- ═══════════════════════════════════════════════════════════════════════════

/-- Events of one store operation: the notifying operations iterate the full
subscriber set, `setFormPhase` notifies nobody. -/
lemma applyStoreOp_events (op : StoreOp) (rt : Runtime) :
    (applyStoreOp op rt).2 = if isNotifyingOp op then rt.subscribers else [] := by
  cases op <;> rfl

/-- The try/catch forEach invokes every subscriber in order, regardless of
which callbacks throw. -/
lemma notifySubscribers_fst (cbs : Nat → Except String Unit) (subs : List Nat) :
    (notifySubscribers cbs subs).map Prod.fst = subs := by
  induction subs with
  | nil => rfl
  | cons c rest ih => simp [notifySubscribers, ih]

/-- C7: `setFormPhase` (named updateForm by the spec) never invokes a subscriber,
every other mutating operation iterates exactly the registered subscriber
list, and the catch-wrapped notification loop invokes every registered
subscriber exactly once, in registration order, however the callbacks throw
— a throwing callback never suppresses a later one and no exception reaches
the mutator (the loop is total). -/
theorem c7_notification_policy :
    (∀ (now : Nat) (u : FormPhaseUpdate) (rt : Runtime),
      (setFormPhase now u rt).2 = []) ∧
    (∀ (op : StoreOp) (rt : Runtime), isNotifyingOp op = true →
      (applyStoreOp op rt).2 = rt.subscribers) ∧
    (∀ (cbs : Nat → Except String Unit) (subs : List Nat),
      (notifySubscribers cbs subs).map Prod.fst = subs) ∧
    (∀ (cbs : Nat → Except String Unit) (subs : List Nat) (c : Nat),
      subs.Nodup → c ∈ subs →
      ((notifySubscribers cbs subs).map Prod.fst).count c = 1) := by
  refine ⟨?_, ?_, ?_, ?_⟩
  · intro now u rt
    rfl
  · intro op rt h
    rw [applyStoreOp_events, if_pos h]
  · exact notifySubscribers_fst
  · intro cbs subs c hnd hc
    rw [notifySubscribers_fst]
    exact List.count_eq_one_of_mem hnd hc

/-- Witness for C7: two subscribers, the first one throwing; both are still
invoked exactly once in order. -/
theorem c7_witness :
    ([3, 5] : List Nat).Nodup ∧ 3 ∈ ([3, 5] : List Nat) ∧
    ((notifySubscribers (fun _ => Except.error "subscriber failure") [3, 5]).map
      Prod.fst).count 3 = 1 ∧
    (notifySubscribers (fun _ => Except.error "subscriber failure") [3, 5]).map
      Prod.fst = [3, 5] ∧
    (setFormPhase 1 { email := some "a@b.c" }
      { initialRuntime with subscribers := [3, 5] }).2 = [] := by
  have hnd : ([3, 5] : List Nat).Nodup := by decide
  have hc : 3 ∈ ([3, 5] : List Nat) := by decide
  exact ⟨hnd, hc,
    c7_notification_policy.2.2.2 (fun _ => Except.error "subscriber failure") [3, 5] 3 hnd hc,
    c7_notification_policy.2.2.1 (fun _ => Except.error "subscriber failure") [3, 5],
    c7_notification_policy.1 1 { email := some "a@b.c" }
      { initialRuntime with subscribers := [3, 5] }⟩

-- ═══════════════════════════════════════════════════════════════════════════
-- C9: the subscriber set deduplicates; removal silences the callback
-- ═══════════════════════════════════════════════════════════════════════════

/-- A subscribed callback is in the subscriber list. -/
lemma mem_subscribe (c : Nat) (rt : Runtime) : c ∈ (subscribe c rt).subscribers := by
  unfold subscribe
  split
  · assumption
  · simp

/-- Subscribing keeps the subscriber list duplicate free. -/
lemma subscribe_nodup (c : Nat) (rt : Runtime) (h : rt.subscribers.Nodup) :
    (subscribe c rt).subscribers.Nodup := by
  unfold subscribe
  split
  · exact h
  · next hm => simp [List.nodup_append, h, hm]

/-- Count of a callback after one subscribe call, starting duplicate free. -/
lemma subscribe_count (c : Nat) (rt : Runtime) (h : rt.subscribers.Nodup) :
    (subscribe c rt).subscribers.count c = 1 := by
  unfold subscribe
  by_cases hm : c ∈ rt.subscribers
  · rw [if_pos hm]
    exact List.count_eq_one_of_mem h hm
  · rw [if_neg hm]
    simp [List.count_append, List.count_eq_zero.mpr hm]

/-- C9: subscribing an already-subscribed callback is a no-op, after two
subscriptions of the same callback each notifying mutation invokes it exactly
once, and the unsubscribe closure removes it entirely so that no mutation
notifies it again. -/
theorem c9_subscribe_dedup :
    ∀ (rt : Runtime) (c : Nat),
      subscribe c (subscribe c rt) = subscribe c rt ∧
      (rt.subscribers.Nodup →
        (subscribe c (subscribe c rt)).subscribers.count c = 1 ∧
        (∀ op : StoreOp, isNotifyingOp op = true →
          (applyStoreOp op (subscribe c (subscribe c rt))).2.count c = 1) ∧
        (unsubscribe c (subscribe c (subscribe c rt))).subscribers.count c = 0 ∧
        (∀ op : StoreOp,
          c ∉ (applyStoreOp op (unsubscribe c (subscribe c (subscribe c rt)))).2)) := by
  intro rt c
  have hmem : c ∈ (subscribe c rt).subscribers := mem_subscribe c rt
  have hdd : subscribe c (subscribe c rt) = subscribe c rt := by
    show (if c ∈ (subscribe c rt).subscribers then subscribe c rt
      else { subscribe c rt with
        subscribers := (subscribe c rt).subscribers ++ [c] }) = subscribe c rt
    rw [if_pos hmem]
  refine ⟨hdd, ?_⟩
  intro hnd
  have hcount : (subscribe c (subscribe c rt)).subscribers.count c = 1 := by
    rw [hdd]
    exact subscribe_count c rt hnd
  have herase : (unsubscribe c (subscribe c (subscribe c rt))).subscribers.count c = 0 := by
    show ((subscribe c (subscribe c rt)).subscribers.erase c).count c = 0
    rw [List.count_erase_self, hcount]
  refine ⟨hcount, ?_, herase, ?_⟩
  · intro op hop
    rw [applyStoreOp_events, if_pos hop]
    exact hcount
  · intro op
    rw [applyStoreOp_events]
    split
    · exact List.count_eq_zero.mp herase
    · simp

/-- Witness for C9 at callback 7 on the fresh runtime. -/
theorem c9_witness :
    initialRuntime.subscribers.Nodup ∧
    subscribe 7 (subscribe 7 initialRuntime) = subscribe 7 initialRuntime ∧
    (subscribe 7 (subscribe 7 initialRuntime)).subscribers.count 7 = 1 ∧
    (unsubscribe 7 (subscribe 7 (subscribe 7 initialRuntime))).subscribers.count 7 = 0 := by
  have hnd : initialRuntime.subscribers.Nodup := by decide
  have hc := c9_subscribe_dedup initialRuntime 7
  have hb := hc.2 hnd
  exact ⟨hnd, hc.1, hb.1, hb.2.2.1⟩

-- ═══════════════════════════════════════════════════════════════════════════
-- C10: drift accounting of the store mutators
-- ═══════════════════════════════════════════════════════════════════════════

/-- Every per-mutation drift increment is nonnegative. -/
lemma driftScore_nonneg (p c : PhaseMemoryState) : 0 ≤ driftScore p c := by
  unfold driftScore
  split_ifs <;> norm_num

/-- Every per-mutation drift increment is at most 0.3 + 0.1 + 0.2 = 0.6. -/
lemma driftScore_le (p c : PhaseMemoryState) : driftScore p c ≤ 3/5 := by
  unfold driftScore
  split_ifs <;> norm_num

/-- A mutation changing none of the three tracked fields scores zero. -/
lemma driftScore_eq_zero {p c : PhaseMemoryState}
    (h1 : p.authPhase.isAuthenticated = c.authPhase.isAuthenticated)
    (h2 : p.uiPhase.currentView = c.uiPhase.currentView)
    (h3 : p.errorPhase.hasError = c.errorPhase.hasError) :
    driftScore p c = 0 := by
  unfold driftScore
  simp [h1, h2, h3]

/-- Pushing a nonnegative score keeps the window nonnegative. -/
lemma pushDrift_nonneg (l : List ℚ) (d : ℚ) (hl : ∀ x ∈ l, 0 ≤ x) (hd : 0 ≤ d) :
    ∀ x ∈ pushDrift l d, 0 ≤ x := by
  intro x hx
  unfold pushDrift at hx
  have hx' : x ∈ l ++ [d] := by
    by_cases hc : (l ++ [d]).length > 10
    · rw [if_pos hc] at hx
      exact List.drop_subset _ _ hx
    · rw [if_neg hc] at hx
      exact hx
  rcases List.mem_append.mp hx' with h | h
  · exact hl x h
  · simp at h
    rw [h]
    exact hd

/-- Average of a nonnegative window is nonnegative. -/
lemma driftAverage_nonneg (l : List ℚ) (h : ∀ x ∈ l, 0 ≤ x) : 0 ≤ driftAverage l := by
  unfold driftAverage
  split
  · exact le_refl 0
  · exact div_nonneg (List.sum_nonneg h) (by positivity)

/-- Pushing a zero score never increases the average of a nonnegative
window, whether or not the oldest entry is evicted. -/
lemma driftAverage_push_zero_le (l : List ℚ) (h : ∀ x ∈ l, 0 ≤ x) :
    driftAverage (pushDrift l 0) ≤ driftAverage l := by
  rcases l with _ | ⟨hd, tl⟩
  · norm_num [pushDrift, driftAverage]
  · have hd0 : 0 ≤ hd := h hd (by simp)
    have htl : ∀ x ∈ tl, 0 ≤ x := fun x hx => h x (by simp [hx])
    have hsum : 0 ≤ tl.sum := List.sum_nonneg htl
    unfold pushDrift
    by_cases hc : ((hd :: tl) ++ [0]).length > 10
    · rw [if_pos hc]
      have hdrop : ((hd :: tl) ++ [0]).drop 1 = tl ++ [0] := rfl
      rw [hdrop]
      unfold driftAverage
      rw [if_neg (by simp), if_neg (by simp)]
      simp only [List.sum_append, List.length_append, List.sum_cons, List.length_cons,
        List.sum_nil, List.length_nil, List.sum_singleton]
      push_cast
      rw [div_le_div_iff_of_pos_right (by positivity)]
      linarith
    · rw [if_neg hc]
      unfold driftAverage
      rw [if_neg (by simp), if_neg (by simp)]
      simp only [List.sum_append, List.length_append, List.sum_cons, List.length_cons,
        List.sum_nil, List.length_nil, List.sum_singleton]
      push_cast
      have hpos1 : (0 : ℚ) < (tl.length : ℚ) + 1 := by positivity
      have hpos2 : (0 : ℚ) < (tl.length : ℚ) + 1 + 1 := by positivity
      rw [div_le_div_iff₀ hpos2 hpos1]
      nlinarith [hsum, hd0]

/-- One no-change mutation never increases the smoothed drift and keeps the
window nonnegative. -/
lemma noChange_avg_step (op : StoreOp) (rt : Runtime)
    (hnn : ∀ x ∈ rt.driftHistory, 0 ≤ x) (hnc : NoChangeStep op rt) :
    getAverageDrift (applyStoreOp op rt).1 ≤ getAverageDrift rt ∧
    (∀ x ∈ (applyStoreOp op rt).1.driftHistory, 0 ≤ x) := by
  obtain ⟨h1, h2, h3⟩ := hnc
  cases op with
  | setAuthPhase now u =>
    have hz : driftScore rt.state
        (applyStoreOp (StoreOp.setAuthPhase now u) rt).1.state = 0 :=
      driftScore_eq_zero h1.symm h2.symm h3.symm
    constructor
    · have he : getAverageDrift (applyStoreOp (StoreOp.setAuthPhase now u) rt).1 =
        driftAverage (pushDrift rt.driftHistory (driftScore rt.state
          (applyStoreOp (StoreOp.setAuthPhase now u) rt).1.state)) := rfl
      rw [he, hz]
      exact driftAverage_push_zero_le _ hnn
    · have he : (applyStoreOp (StoreOp.setAuthPhase now u) rt).1.driftHistory =
        pushDrift rt.driftHistory (driftScore rt.state
          (applyStoreOp (StoreOp.setAuthPhase now u) rt).1.state) := rfl
      rw [he]
      exact pushDrift_nonneg _ _ hnn (driftScore_nonneg _ _)
  | setUIPhase now u =>
    have hz : driftScore rt.state
        (applyStoreOp (StoreOp.setUIPhase now u) rt).1.state = 0 :=
      driftScore_eq_zero h1.symm h2.symm h3.symm
    constructor
    · have he : getAverageDrift (applyStoreOp (StoreOp.setUIPhase now u) rt).1 =
        driftAverage (pushDrift rt.driftHistory (driftScore rt.state
          (applyStoreOp (StoreOp.setUIPhase now u) rt).1.state)) := rfl
      rw [he, hz]
      exact driftAverage_push_zero_le _ hnn
    · have he : (applyStoreOp (StoreOp.setUIPhase now u) rt).1.driftHistory =
        pushDrift rt.driftHistory (driftScore rt.state
          (applyStoreOp (StoreOp.setUIPhase now u) rt).1.state) := rfl
      rw [he]
      exact pushDrift_nonneg _ _ hnn (driftScore_nonneg _ _)
  | setError now code message src =>
    have hz : driftScore rt.state
        (applyStoreOp (StoreOp.setError now code message src) rt).1.state = 0 :=
      driftScore_eq_zero h1.symm h2.symm h3.symm
    constructor
    · have he : getAverageDrift
        (applyStoreOp (StoreOp.setError now code message src) rt).1 =
        driftAverage (pushDrift rt.driftHistory (driftScore rt.state
          (applyStoreOp (StoreOp.setError now code message src) rt).1.state)) := rfl
      rw [he, hz]
      exact driftAverage_push_zero_le _ hnn
    · have he : (applyStoreOp (StoreOp.setError now code message src) rt).1.driftHistory =
        pushDrift rt.driftHistory (driftScore rt.state
          (applyStoreOp (StoreOp.setError now code message src) rt).1.state) := rfl
      rw [he]
      exact pushDrift_nonneg _ _ hnn (driftScore_nonneg _ _)
  | setFormPhase now u => exact ⟨le_refl _, hnn⟩
  | clearError now => exact ⟨le_refl _, hnn⟩
  | setPhaseStability now s => exact ⟨le_refl _, hnn⟩
  | reset now =>
    constructor
    · have he : getAverageDrift (applyStoreOp (StoreOp.reset now) rt).1 =
        driftAverage [] := rfl
      rw [he]
      exact driftAverage_nonneg _ hnn
    · intro x hx
      exact absurd hx (List.not_mem_nil x)

/-- A whole sequence of no-change mutations never increases the smoothed
drift over a nonnegative window. -/
lemma noChangeSeq_avg (ops : List StoreOp) :
    ∀ rt : Runtime, NoChangeSeq ops rt → (∀ x ∈ rt.driftHistory, 0 ≤ x) →
    getAverageDrift (applyStoreOps ops rt) ≤ getAverageDrift rt := by
  induction ops with
  | nil =>
    intro rt _ _
    exact le_refl _
  | cons op ops ih =>
    intro rt hseq hnn
    obtain ⟨hstep, hrest⟩ := hseq
    have hone := noChange_avg_step op rt hnn hstep
    exact le_trans (ih _ hrest hone.2) hone.1

/-- C10: only `setAuthPhase`, `setUIPhase` and `setError` push a drift
increment (`setFormPhase`, `clearError` and `setPhaseStability` push none,
`reset` clears the window); every pushed increment is determined by the
three tracked fields, lies in [0, 0.6], is zero when none of them changed,
and hence any sequence of no-change mutations never increases the smoothed
instability read by the stability gate of the executor. -/
theorem c10_drift_accounting :
    (∀ (now : Nat) (u : FormPhaseUpdate) (rt : Runtime),
      (setFormPhase now u rt).1.driftHistory = rt.driftHistory) ∧
    (∀ (now : Nat) (rt : Runtime),
      (clearError now rt).1.driftHistory = rt.driftHistory) ∧
    (∀ (now : Nat) (s : PhaseStability) (rt : Runtime),
      (setPhaseStability now s rt).1.driftHistory = rt.driftHistory) ∧
    (∀ (now : Nat) (rt : Runtime), (reset now rt).1.driftHistory = []) ∧
    (∀ (now : Nat) (u : AuthPhaseUpdate) (rt : Runtime),
      (setAuthPhase now u rt).1.driftHistory = pushDrift rt.driftHistory
        (driftScore rt.state (setAuthPhase now u rt).1.state)) ∧
    (∀ (now : Nat) (u : UIPhaseUpdate) (rt : Runtime),
      (setUIPhase now u rt).1.driftHistory = pushDrift rt.driftHistory
        (driftScore rt.state (setUIPhase now u rt).1.state)) ∧
    (∀ (now : Nat) (code message : String) (src : ErrorSourceGlyph) (rt : Runtime),
      (setError now code message src rt).1.driftHistory = pushDrift rt.driftHistory
        (driftScore rt.state (setError now code message src rt).1.state)) ∧
    (∀ p c : PhaseMemoryState, 0 ≤ driftScore p c ∧ driftScore p c ≤ 3/5) ∧
    (∀ p c : PhaseMemoryState,
      p.authPhase.isAuthenticated = c.authPhase.isAuthenticated →
      p.uiPhase.currentView = c.uiPhase.currentView →
      p.errorPhase.hasError = c.errorPhase.hasError →
      driftScore p c = 0) ∧
    (∀ (ops : List StoreOp) (rt : Runtime), NoChangeSeq ops rt →
      (∀ x ∈ rt.driftHistory, 0 ≤ x) →
      getAverageDrift (applyStoreOps ops rt) ≤ getAverageDrift rt) := by
  refine ⟨?_, ?_, ?_, ?_, ?_, ?_, ?_, ?_, ?_, ?_⟩
  · intro now u rt
    rfl
  · intro now rt
    rfl
  · intro now s rt
    rfl
  · intro now rt
    rfl
  · intro now u rt
    rfl
  · intro now u rt
    rfl
  · intro now code message src rt
    rfl
  · intro p c
    exact ⟨driftScore_nonneg p c, driftScore_le p c⟩
  · intro p c h1 h2 h3
    exact driftScore_eq_zero h1 h2 h3
  · exact fun ops rt => noChangeSeq_avg ops rt

/-- Witness for C10: a stability override followed by an empty auth update
changes none of the tracked fields and leaves the smoothed drift at zero. -/
theorem c10_witness :
    NoChangeSeq [StoreOp.setPhaseStability 1 PhaseStability.STABLE,
      StoreOp.setAuthPhase 2 {}] initialRuntime ∧
    getAverageDrift (applyStoreOps
      [StoreOp.setPhaseStability 1 PhaseStability.STABLE,
        StoreOp.setAuthPhase 2 {}] initialRuntime) ≤
      getAverageDrift initialRuntime := by
  have hseq : NoChangeSeq [StoreOp.setPhaseStability 1 PhaseStability.STABLE,
      StoreOp.setAuthPhase 2 {}] initialRuntime :=
    ⟨⟨rfl, rfl, rfl⟩, ⟨rfl, rfl, rfl⟩, trivial⟩
  have hnn : ∀ x ∈ initialRuntime.driftHistory, 0 ≤ x := by
    intro x hx
    exact absurd hx (List.not_mem_nil x)
  exact ⟨hseq, c10_drift_accounting.2.2.2.2.2.2.2.2.2 _ initialRuntime hseq hnn⟩
